import Mathlib

/-!
Verification development for the `celebration` repository (`src/app.py`).

The program is a Flask webhook server driving a NeoPixel LED strip:

* module constants `NUM_LEDS = 300` and `BRIGHTNESS = 0.5`, and a strip
  handle `pixels` whose buffer is written by `fill` and pushed to the
  hardware by a flush call;
* `celebrate()` loops five times, each iteration filling the strip green,
  flushing, sleeping 0.5 s, filling it off, flushing, sleeping 0.5 s;
* the `webhook` handler parses the request body as JSON; if the parsed
  value is truthy and its `event` field equals the string `closed_won`
  it logs a message, runs `celebrate()` synchronously and returns 200
  with a static success body, otherwise it returns 400 with a static
  error body.  Calling `.get` on a truthy value that is not a dict
  raises `AttributeError`, which escapes the handler.

The embedding below models the hardware interaction as an explicit event
trace, JSON values as an inductive type with Python truthiness, and the
handler as a pure function from the parsed body to the emitted steps
(log lines and hardware events, in order) together with an outcome
(a returned response, or an uncaught exception).
-/

namespace Celebration

/-- An RGB color triple, as passed to `pixels.fill`. -/
abbrev Color := Nat × Nat × Nat

/-- `NUM_LEDS = 300` from src/app.py. -/
def NUM_LEDS : Nat := 300

/-- `BRIGHTNESS = 0.5` from src/app.py. -/
def BRIGHTNESS : ℚ := 1/2

/-- `LED_PIN = board.D18` from src/app.py (GPIO pin number). -/
def LED_PIN : Nat := 18

/-- A hardware command issued to the strip or the clock:
`fill c` writes color `c` to every element of the strip buffer,
`flush` pushes the buffer to the hardware (the strip's show method,
possible here because `auto_write=False`), and `sleep q` holds for
`q` seconds. -/
inductive HWEvent where
| fill (c : Color)
| flush
| sleep (seconds : ℚ)

/-- The observable state of the NeoPixel strip: the in-memory `buffer`
written by `fill`, and the colors last `shown` on the physical strip. -/
structure StripState where
  buffer : List Color
  shown : List Color

/-- The strip handle `pixels`, initially dark in buffer and hardware. -/
def pixels : StripState :=
  ⟨List.replicate NUM_LEDS (0, 0, 0), List.replicate NUM_LEDS (0, 0, 0)⟩

/-- Semantics of one hardware command on the strip state. -/
def applyEvent (s : StripState) : HWEvent → StripState
| HWEvent.fill c => ⟨List.replicate NUM_LEDS c, s.shown⟩
| HWEvent.flush => ⟨s.buffer, s.buffer⟩
| HWEvent.sleep _ => s

/-- Run a trace of hardware commands from a strip state. -/
def applyTrace (s : StripState) (t : List HWEvent) : StripState :=
  t.foldl applyEvent s

/-- The trace of hardware commands issued by `celebrate()` in
src/app.py: `for _ in range(5)`, each iteration appending
fill green, flush, sleep 0.5, fill off, flush, sleep 0.5. -/
def celebrate : List HWEvent :=
  (List.range 5).foldl
    (fun t _ =>
      t ++ [HWEvent.fill (0, 255, 0), HWEvent.flush, HWEvent.sleep (1/2),
            HWEvent.fill (0, 0, 0), HWEvent.flush, HWEvent.sleep (1/2)])
    []

/-- The seconds held by a command: the argument of `sleep`, else zero. -/
def sleepDuration : HWEvent → ℚ
| HWEvent.sleep q => q
| _ => 0

/-- Total seconds a trace spends sleeping. -/
def sleepTotal (t : List HWEvent) : ℚ :=
  (t.map sleepDuration).sum

/-- One on/off cycle as the spec words it: set every output element to
full green, flush, hold 0.5 time-units, set every element to off,
flush, hold 0.5 time-units.  Stated from the spec, for comparison with
the `celebrate` trace embedded from the source. -/
def onOffCycle : List HWEvent :=
  [HWEvent.fill (0, 255, 0), HWEvent.flush, HWEvent.sleep (1/2),
   HWEvent.fill (0, 0, 0), HWEvent.flush, HWEvent.sleep (1/2)]

/-- Parsed JSON values, as Python's json module produces them. -/
inductive Json where
| null
| bool (b : Bool)
| num (q : ℚ)
| str (s : String)
| arr (elems : List Json)
| obj (fields : List (String × Json))

/-- Python truthiness of a parsed JSON value: None and False are falsy,
numbers are truthy unless zero, strings and containers unless empty. -/
def truthy : Json → Bool
| Json.null => false
| Json.bool b => b
| Json.num q => decide (q ≠ 0)
| Json.str s => decide (s ≠ "")
| Json.arr es => !es.isEmpty
| Json.obj fs => !fs.isEmpty

/-- Python's `data.get(k)`: defined on dicts (returning `None` for a
missing key); on any other value the attribute access raises
`AttributeError`. -/
def jsonGet : Json → String → Except String (Option Json)
| Json.obj fs, k => Except.ok (List.lookup k fs)
| _, _ => Except.error "AttributeError"

/-- Python's `x == lit` for a string literal `lit`, where `x` is a
`.get` result (`None` or a parsed JSON value): true exactly when `x`
is that string. -/
def pyEqString : Option Json → String → Bool
| some (Json.str s), t => s == t
| _, _ => false

/-- One step the handler performs, in order: a log line (print) or
a hardware command. -/
inductive Step where
| log (msg : String)
| hw (e : HWEvent)

/-- An HTTP response: status code and JSON body. -/
structure Response where
  status : Nat
  body : Json

/-- How a handler invocation ends: a returned response, or an uncaught
Python exception escaping to the framework. -/
inductive Outcome where
| ok (r : Response)
| exn (e : String)

/-- The body `jsonify(status success, message LEDs blinked)`. -/
def successBody : Json :=
  Json.obj [("status", Json.str "success"), ("message", Json.str "LEDs blinked")]

/-- The body `jsonify(status error, message Invalid webhook data)`. -/
def errorBody : Json :=
  Json.obj [("status", Json.str "error"), ("message", Json.str "Invalid webhook data")]

/-- The `webhook` handler of src/app.py, as a function of the parsed
request body (`none` when `request.get_json()` yields no value, e.g. an
unparseable body).  It returns the steps performed, in order, and the
outcome produced after those steps.  The condition
`data and data.get("event") == "closed_won"` short-circuits: truthiness
is tested first, and `.get` is only reached on a truthy value. -/
def webhook (data : Option Json) : List Step × Outcome :=
  match data with
  | none => ([], Outcome.ok ⟨400, errorBody⟩)
  | some j =>
    if truthy j then
      match jsonGet j "event" with
      | Except.error e => ([], Outcome.exn e)
      | Except.ok v =>
        if pyEqString v "closed_won" then
          (Step.log "🎉 Deal Closed - Blinking LEDs!" :: celebrate.map Step.hw,
           Outcome.ok ⟨200, successBody⟩)
        else ([], Outcome.ok ⟨400, errorBody⟩)
    else ([], Outcome.ok ⟨400, errorBody⟩)

/-- Effect of one handler step on the strip (log lines touch nothing). -/
def applyStep (s : StripState) : Step → StripState
| Step.log _ => s
| Step.hw e => applyEvent s e

/-- Effect of a step list on the strip. -/
def stepEffects (s : StripState) (t : List Step) : StripState :=
  t.foldl applyStep s

/-- One request handled against the module-level strip: the strip after
the handler's steps, together with the steps and the outcome. -/
def handleRequest (s : StripState) (d : Option Json) :
    StripState × (List Step × Outcome) :=
  (stepEffects s (webhook d).1, webhook d)

/-- The server handling a sequence of requests, threading the only
module-level mutable state (the strip) through the handler. -/
def serverRun : StripState → List (Option Json) → List (List Step × Outcome)
| _, [] => []
| s, d :: ds => (handleRequest s d).2 :: serverRun (handleRequest s d).1 ds

/-- Modelled from the spec: variant 3's startup code is not under src/
(src/app.py is the LED variant, which binds port 5000 unconditionally).
Per the spec, variant 3 binds the port given by the optional `PORT`
environment variable, defaulting to 5000. -/
def variant3Port (portEnv : Option Nat) : Nat :=
  portEnv.getD 5000

/-- The fixed port bound by src/app.py itself: `app.run(port=5000)`. -/
def appRunPort : Nat := 5000

/-- Helper: on a payload whose `event` field is the string `closed_won`,
the handler logs, emits the whole celebration trace and returns 200. -/
theorem webhook_event_eq (fs : List (String × Json))
    (h : List.lookup "event" fs = some (Json.str "closed_won")) :
    webhook (some (Json.obj fs)) =
      (Step.log "🎉 Deal Closed - Blinking LEDs!" :: celebrate.map Step.hw,
       Outcome.ok ⟨200, successBody⟩) := by
  cases fs with
  | nil => simp [List.lookup] at h
  | cons p rest => simp [webhook, truthy, jsonGet, h, pyEqString]

/-- Helper: every handler invocation ends in one of exactly three ways:
the static 400 error with no steps, an uncaught `AttributeError` with no
steps, or the log-plus-celebration steps with the static 200 success. -/
theorem webhook_cases (d : Option Json) :
    webhook d = ([], Outcome.ok ⟨400, errorBody⟩)
    ∨ webhook d = ([], Outcome.exn "AttributeError")
    ∨ webhook d = (Step.log "🎉 Deal Closed - Blinking LEDs!" :: celebrate.map Step.hw,
        Outcome.ok ⟨200, successBody⟩) := by
  rcases d with _ | j
  · exact Or.inl rfl
  · by_cases ht : truthy j
    · cases j with
      | obj fs =>
        by_cases he : pyEqString (List.lookup "event" fs) "closed_won"
        · exact Or.inr (Or.inr (by simp [webhook, ht, jsonGet, he]))
        · exact Or.inl (by simp [webhook, ht, jsonGet, he])
      | null => exact Or.inr (Or.inl (by simp [webhook, ht, jsonGet]))
      | bool b => exact Or.inr (Or.inl (by simp [webhook, ht, jsonGet]))
      | num q => exact Or.inr (Or.inl (by simp [webhook, ht, jsonGet]))
      | str s => exact Or.inr (Or.inl (by simp [webhook, ht, jsonGet]))
      | arr es => exact Or.inr (Or.inl (by simp [webhook, ht, jsonGet]))
    · exact Or.inl (by simp [webhook, ht])

/-- C1: a POST body that parses to a JSON object whose `event` field is
the string `closed_won` makes the handler return 200 with the static
success body (status success, message LEDs blinked), after emitting
exactly five on/off color cycles to the pixel strip. -/
theorem webhook_closed_won_success (fs : List (String × Json))
    (h : List.lookup "event" fs = some (Json.str "closed_won")) :
    webhook (some (Json.obj fs)) =
      (Step.log "🎉 Deal Closed - Blinking LEDs!" ::
        (List.flatten (List.replicate 5 onOffCycle)).map Step.hw,
       Outcome.ok ⟨200, successBody⟩) := by
  rw [webhook_event_eq fs h]
  rfl

/-- Witness for C1 at the concrete payload with event closed_won. -/
theorem webhook_closed_won_success_witness :
    List.lookup "event" [("event", Json.str "closed_won")] =
      some (Json.str "closed_won")
    ∧ webhook (some (Json.obj [("event", Json.str "closed_won")])) =
        (Step.log "🎉 Deal Closed - Blinking LEDs!" ::
          (List.flatten (List.replicate 5 onOffCycle)).map Step.hw,
         Outcome.ok ⟨200, successBody⟩) :=
  ⟨rfl, webhook_closed_won_success [("event", Json.str "closed_won")] rfl⟩

/-- C2: the celebration trace is exactly five repetitions, in order, of
the on/off cycle (fill full green, flush, hold 0.5, fill off, flush,
hold 0.5); it is a fixed closed list of length 30, hence deterministic
and terminating, taking no input beyond the module constants. -/
theorem celebrate_is_five_on_off_cycles :
    celebrate = List.flatten (List.replicate 5 onOffCycle)
    ∧ celebrate.length = 30 :=
  ⟨rfl, rfl⟩

/-- Counterexample to C3 as stated: the body parsing to the JSON string
boom has no `event` field, yet the handler does not return the 400
error response — `.get` on a truthy non-dict raises `AttributeError`,
which escapes to the framework. -/
theorem webhook_nonobject_counterexample :
    (webhook (some (Json.str "boom"))).2 = Outcome.exn "AttributeError"
    ∧ ¬ (webhook (some (Json.str "boom"))).2 = Outcome.ok ⟨400, errorBody⟩ :=
  ⟨rfl, fun hc => Outcome.noConfusion
    ((show Outcome.exn "AttributeError" = (webhook (some (Json.str "boom"))).2
      from rfl).trans hc)⟩

/-- C3 (amended): a parsed body that is falsy, or is a JSON object whose
`event` field is absent or not the string `closed_won`, gets the 400
response with the static error body and no steps; truthy non-object
bodies instead raise an uncaught `AttributeError`. -/
theorem webhook_invalid_returns_400 (j : Json)
    (h : truthy j = false ∨
      ∃ fs, j = Json.obj fs ∧
        ¬ List.lookup "event" fs = some (Json.str "closed_won")) :
    webhook (some j) = ([], Outcome.ok ⟨400, errorBody⟩) := by
  rcases h with h | ⟨fs, rfl, hne⟩
  · simp [webhook, h]
  · by_cases ht : truthy (Json.obj fs)
    · have hp : pyEqString (List.lookup "event" fs) "closed_won" = false := by
        cases hv : List.lookup "event" fs with
        | none => rfl
        | some v =>
          cases v with
          | str s =>
            have hs : s ≠ "closed_won" := by
              intro he
              exact hne (by rw [hv, he])
            simp [pyEqString, hs]
          | null => rfl
          | bool b => rfl
          | num q => rfl
          | arr es => rfl
          | obj fs2 => rfl
      simp [webhook, ht, jsonGet, hp]
    · simp [webhook, ht]

/-- Witness for C3 (amended) at the falsy payload JSON false. -/
theorem webhook_invalid_returns_400_witness :
    truthy (Json.bool false) = false
    ∧ webhook (some (Json.bool false)) = ([], Outcome.ok ⟨400, errorBody⟩) :=
  ⟨rfl, webhook_invalid_returns_400 (Json.bool false) (Or.inl rfl)⟩

/-- C4: when the body does not parse as JSON, `request.get_json()`
yields no value, and the handler returns the 400 response with the
static error body, issuing no steps. -/
theorem webhook_unparseable_400 :
    webhook none = ([], Outcome.ok ⟨400, errorBody⟩) := rfl

/-- Counterexample to C5 as stated: on the body parsing to the JSON
array containing null, the handler returns no response at all — it
raises an uncaught `AttributeError` (the framework then answers 500),
so the produced status is neither 200 nor 400. -/
theorem webhook_status_counterexample :
    (webhook (some (Json.arr [Json.null]))).2 = Outcome.exn "AttributeError"
    ∧ ¬ ∃ r, (webhook (some (Json.arr [Json.null]))).2 = Outcome.ok r :=
  ⟨rfl, fun ⟨_, hr⟩ => Outcome.noConfusion
    ((show Outcome.exn "AttributeError" =
        (webhook (some (Json.arr [Json.null]))).2 from rfl).trans hr)⟩

/-- C5 (amended): whenever the handler itself returns a response (it
does not on truthy non-object payloads, where `.get` raises), that
response's status is 200 or 400. -/
theorem webhook_responses_200_or_400 (d : Option Json) (r : Response)
    (h : (webhook d).2 = Outcome.ok r) :
    r.status = 200 ∨ r.status = 400 := by
  rcases webhook_cases d with hc | hc | hc
  · rw [hc] at h
    injection h with h2
    rw [← h2]
    exact Or.inr rfl
  · rw [hc] at h
    exact Outcome.noConfusion h
  · rw [hc] at h
    injection h with h2
    rw [← h2]
    exact Or.inl rfl

/-- Witness for C5 (amended) at the absent payload. -/
theorem webhook_responses_200_or_400_witness :
    (webhook none).2 = Outcome.ok ⟨400, errorBody⟩
    ∧ ((⟨400, errorBody⟩ : Response).status = 200
       ∨ (⟨400, errorBody⟩ : Response).status = 400) :=
  ⟨rfl, webhook_responses_200_or_400 none ⟨400, errorBody⟩ rfl⟩

/-- C6: on an `event = closed_won` payload the handler emits the entire
celebration trace before its outcome is produced (the response exists
only after the last step — the model's step list is the work done,
synchronously, ahead of the returned outcome), and the trace holds the
thread for 5 seconds of sleep in total. -/
theorem webhook_blocks_for_celebration (fs : List (String × Json))
    (h : List.lookup "event" fs = some (Json.str "closed_won")) :
    (webhook (some (Json.obj fs))).1 =
      Step.log "🎉 Deal Closed - Blinking LEDs!" :: celebrate.map Step.hw
    ∧ sleepTotal celebrate = 5 := by
  refine ⟨by rw [webhook_event_eq fs h], ?_⟩
  have hc : celebrate = List.flatten (List.replicate 5 onOffCycle) := rfl
  rw [sleepTotal, hc]
  simp [onOffCycle, sleepDuration]
  norm_num

/-- Witness for C6 at the concrete payload with event closed_won. -/
theorem webhook_blocks_for_celebration_witness :
    List.lookup "event" [("event", Json.str "closed_won")] =
      some (Json.str "closed_won")
    ∧ ((webhook (some (Json.obj [("event", Json.str "closed_won")]))).1 =
        Step.log "🎉 Deal Closed - Blinking LEDs!" :: celebrate.map Step.hw
       ∧ sleepTotal celebrate = 5) :=
  ⟨rfl, webhook_blocks_for_celebration [("event", Json.str "closed_won")] rfl⟩

/-- C7: the handler is stateless and deterministic — running any request
sequence from any strip state produces exactly the pointwise image of
`webhook` over the payloads, so equal payloads always get equal steps
and outcomes, independent of every previously handled request. -/
theorem webhook_stateless :
    ∀ (s : StripState) (reqs : List (Option Json)),
      serverRun s reqs = reqs.map webhook := by
  intro s reqs
  induction reqs generalizing s with
  | nil => rfl
  | cons d ds ih => simp [serverRun, handleRequest, ih]

/-- C8: on variant 3 (spec-modelled; only the LED variant is in src/),
the bound port is the `PORT` environment variable when set, else 5000. -/
theorem variant3_port_spec :
    (∀ p, variant3Port (some p) = p) ∧ variant3Port none = 5000 :=
  ⟨fun _ => rfl, rfl⟩

/-- C9: after the celebration trace runs from any strip state, the
strip's buffer and its flushed hardware state are entirely off (color
0,0,0), and the trace indeed ends with the off fill followed by a
flush (and the final sleep). -/
theorem celebrate_leaves_strip_off :
    ∀ s : StripState,
      (applyTrace s celebrate).buffer = List.replicate NUM_LEDS (0, 0, 0)
      ∧ (applyTrace s celebrate).shown = List.replicate NUM_LEDS (0, 0, 0)
      ∧ ∃ t, celebrate =
          t ++ [HWEvent.fill (0, 0, 0), HWEvent.flush, HWEvent.sleep (1/2)] :=
  fun _ =>
    ⟨rfl, rfl,
      ⟨List.flatten (List.replicate 4 onOffCycle) ++
        [HWEvent.fill (0, 255, 0), HWEvent.flush, HWEvent.sleep (1/2)], rfl⟩⟩

/-- C10: every request answered with a 400 response causes no hardware
command at all — the handler's step list is empty, so the strip state
is unchanged. -/
theorem webhook_400_no_hw (d : Option Json) (s : StripState) (r : Response)
    (h : (webhook d).2 = Outcome.ok r) (h4 : r.status = 400) :
    (webhook d).1 = [] ∧ stepEffects s (webhook d).1 = s := by
  rcases webhook_cases d with hc | hc | hc
  · rw [hc]
    exact ⟨rfl, rfl⟩
  · rw [hc] at h
    exact Outcome.noConfusion h
  · rw [hc] at h
    injection h with h2
    rw [← h2] at h4
    simp at h4

/-- Witness for C10 at the payload JSON null and the initial strip. -/
theorem webhook_400_no_hw_witness :
    (webhook (some Json.null)).2 = Outcome.ok ⟨400, errorBody⟩
    ∧ ((webhook (some Json.null)).1 = []
       ∧ stepEffects pixels (webhook (some Json.null)).1 = pixels) :=
  ⟨rfl, webhook_400_no_hw (some Json.null) pixels ⟨400, errorBody⟩ rfl rfl⟩

end Celebration
